import Mathlib

/-!
Verification development for `calculator.py`, a console calculator that
reads lines of the form `a operator b`, evaluates `+`, `-`, `*`, `/` on
Python floats, reports classified errors, and loops until `exit`/`quit`
or end-of-input.

Python floats are modelled by `PyFloat`: an exact rational for the finite
values (idealising IEEE-754 rounding away) together with the two
infinities and NaN, with the IEEE comparison and arithmetic rules on the
special values.  Python exceptions are modelled by `Except PyError`.
The interactive session is modelled as a function from the finite list of
input lines to the list of printed lines plus how the process ended.
-/

/-- Model of a Python `float` value: a finite value (exact rational,
idealising binary64 rounding), a signed infinity (`pos := true` for
`+inf`), or NaN. -/
inductive PyFloat where
  | finite (q : ℚ)
  | inf (pos : Bool)
  | nan
deriving DecidableEq

/-- The float `0.0` (Python's `-0.0` compares equal to it and is conflated
with it in this model). -/
def PyFloat.zero : PyFloat := PyFloat.finite 0

/-- Python float equality `x == y`: NaN is not equal to anything,
infinities are equal only to the same-signed infinity. Models the `b == 0`
test in `calculate`. -/
def PyFloat.beq : PyFloat → PyFloat → Bool
  | PyFloat.finite q, PyFloat.finite r => q == r
  | PyFloat.inf p, PyFloat.inf p2 => p == p2
  | _, _ => false

/-- Python float addition `a + b` with the IEEE rules on the special
values; never raises. -/
def PyFloat.add : PyFloat → PyFloat → PyFloat
  | PyFloat.nan, _ => PyFloat.nan
  | _, PyFloat.nan => PyFloat.nan
  | PyFloat.inf p, PyFloat.inf p2 => if p = p2 then PyFloat.inf p else PyFloat.nan
  | PyFloat.inf p, PyFloat.finite _ => PyFloat.inf p
  | PyFloat.finite _, PyFloat.inf p => PyFloat.inf p
  | PyFloat.finite q, PyFloat.finite r => PyFloat.finite (q + r)

/-- Python float subtraction `a - b` with the IEEE rules on the special
values; never raises. -/
def PyFloat.sub : PyFloat → PyFloat → PyFloat
  | PyFloat.nan, _ => PyFloat.nan
  | _, PyFloat.nan => PyFloat.nan
  | PyFloat.inf p, PyFloat.inf p2 => if p = p2 then PyFloat.nan else PyFloat.inf p
  | PyFloat.inf p, PyFloat.finite _ => PyFloat.inf p
  | PyFloat.finite _, PyFloat.inf p => PyFloat.inf (!p)
  | PyFloat.finite q, PyFloat.finite r => PyFloat.finite (q - r)

/-- Python float multiplication `a * b` with the IEEE rules on the special
values (`inf * 0` is NaN); never raises. -/
def PyFloat.mul : PyFloat → PyFloat → PyFloat
  | PyFloat.nan, _ => PyFloat.nan
  | _, PyFloat.nan => PyFloat.nan
  | PyFloat.inf p, PyFloat.inf p2 => PyFloat.inf (p == p2)
  | PyFloat.inf p, PyFloat.finite r =>
      if r = 0 then PyFloat.nan else PyFloat.inf (p == decide (0 < r))
  | PyFloat.finite q, PyFloat.inf p =>
      if q = 0 then PyFloat.nan else PyFloat.inf (p == decide (0 < q))
  | PyFloat.finite q, PyFloat.finite r => PyFloat.finite (q * r)

/-- Python float division `a / b` on the special values; division of two
finite values is exact rational division. Python raises
`ZeroDivisionError` when the divisor is a zero float, but `calculate`
tests `b == 0` first, so that case is unreachable from the program; it is
mapped to NaN here to keep the function total. -/
def PyFloat.div : PyFloat → PyFloat → PyFloat
  | PyFloat.nan, _ => PyFloat.nan
  | _, PyFloat.nan => PyFloat.nan
  | PyFloat.inf _, PyFloat.inf _ => PyFloat.nan
  | PyFloat.inf p, PyFloat.finite r =>
      if r = 0 then PyFloat.nan else PyFloat.inf (p == decide (0 < r))
  | PyFloat.finite _, PyFloat.inf _ => PyFloat.finite 0
  | PyFloat.finite q, PyFloat.finite r =>
      if r = 0 then PyFloat.nan else PyFloat.finite (q / r)

/-- Model of the Python exceptions that the session loop distinguishes:
`ValueError`, `ZeroDivisionError`, and any other `Exception`. -/
inductive PyError where
  | valueError (msg : String)
  | zeroDivisionError (msg : String)
  | otherError (msg : String)
deriving DecidableEq

/-- Embedding of `calculate(a, b, operator)` from `calculator.py` lines
10-22: four-way exact-match dispatch on the operator string, a
`ZeroDivisionError` guard on `b == 0` before `/`, and `ValueError` for any
other operator symbol. -/
def calculate (a b : PyFloat) (operator : String) : Except PyError PyFloat :=
  if operator = "+" then Except.ok (PyFloat.add a b)
  else if operator = "-" then Except.ok (PyFloat.sub a b)
  else if operator = "*" then Except.ok (PyFloat.mul a b)
  else if operator = "/" then
    if PyFloat.beq b PyFloat.zero then
      Except.error (PyError.zeroDivisionError "Division by zero is not allowed.")
    else Except.ok (PyFloat.div a b)
  else Except.error (PyError.valueError ("Unsupported operator: " ++ operator))

/-- Model of Python `str.strip()` with no argument: remove leading and
trailing whitespace. Implemented on the character list of the string. -/
def pyStrip (s : String) : String :=
  String.mk (((s.data.dropWhile Char.isWhitespace).reverse.dropWhile
    Char.isWhitespace).reverse)

/-- Model of Python `str.lower()` (ASCII case mapping, which covers every
keyword and operator the program compares against). -/
def pyLower (s : String) : String :=
  String.mk (s.data.map Char.toLower)

/-- Helper for `pySplit`: scan the characters, accumulating the current
token in reverse; whitespace ends a token, and empty tokens are dropped,
matching Python `str.split()` with no argument. -/
def splitWsAux : List Char → List Char → List (List Char)
  | [], acc => if acc.isEmpty then [] else [acc.reverse]
  | c :: rest, acc =>
    if Char.isWhitespace c then
      if acc.isEmpty then splitWsAux rest []
      else acc.reverse :: splitWsAux rest []
    else splitWsAux rest (c :: acc)

/-- Model of Python `str.split()` with no argument: split on runs of
whitespace, producing no empty tokens. -/
def pySplit (s : String) : List String :=
  (splitWsAux s.data []).map String.mk

/-- Value of a list of decimal digit characters, most significant first. -/
def digitsToNat (cs : List Char) : Nat :=
  cs.foldl (fun n c => 10 * n + (c.toNat - 48)) 0

/-- Split a character list at the first `e`/`E`, returning the mantissa
characters and, when present, the characters after the marker. -/
def splitAtExpChar : List Char → List Char × Option (List Char)
  | [] => ([], none)
  | c :: rest =>
    if c = 'e' ∨ c = 'E' then ([], some rest)
    else
      let p := splitAtExpChar rest
      (c :: p.1, p.2)

/-- Split a character list at the first `.`, returning the integer-part
characters and, when present, the characters after the dot. -/
def splitAtDot : List Char → List Char × Option (List Char)
  | [] => ([], none)
  | c :: rest =>
    if c = '.' then ([], some rest)
    else
      let p := splitAtDot rest
      (c :: p.1, p.2)

/-- Parse an unsigned decimal mantissa `digits [. digits]` (at least one
digit overall) as an exact rational. -/
def parseMantissa (cs : List Char) : Option ℚ :=
  let p := splitAtDot cs
  let ip := p.1
  let fp := (p.2).getD []
  if (ip ++ fp).all Char.isDigit ∧ 0 < ip.length + fp.length then
    some (mkRat (digitsToNat ip * 10 ^ fp.length + digitsToNat fp) (10 ^ fp.length))
  else none

/-- Parse an optionally signed decimal exponent (nonempty digit string). -/
def parseExpDigits : List Char → Option ℤ
  | '-' :: ds =>
    if ds ≠ [] ∧ ds.all Char.isDigit then some (-(digitsToNat ds : ℤ)) else none
  | '+' :: ds =>
    if ds ≠ [] ∧ ds.all Char.isDigit then some (digitsToNat ds : ℤ) else none
  | ds =>
    if ds ≠ [] ∧ ds.all Char.isDigit then some (digitsToNat ds : ℤ) else none

/-- Scale a mantissa by `10 ^ e` exactly. -/
def applyExp (q : ℚ) (e : ℤ) : ℚ :=
  if 0 ≤ e then mkRat (q.num * 10 ^ e.toNat) q.den
  else mkRat q.num (q.den * 10 ^ (-e).toNat)

/-- Parse an unsigned decimal floating-point literal
`digits [. digits] [(e|E) [sign] digits]` as an exact rational. -/
def parseDecimal (cs : List Char) : Option ℚ :=
  let p := splitAtExpChar cs
  match parseMantissa p.1 with
  | none => none
  | some q =>
    match p.2 with
    | none => some q
    | some ecs =>
      match parseExpDigits ecs with
      | none => none
      | some e => some (applyExp q e)

/-- Strip one leading sign character, returning `true` for non-negative. -/
def pyFloatSign : List Char → Bool × List Char
  | '-' :: body => (false, body)
  | '+' :: body => (true, body)
  | body => (true, body)

/-- Model of Python's builtin `float(str)` as used on the operand tokens:
surrounding whitespace is ignored, an optional sign is followed by either
a case-insensitive `inf`/`infinity`/`nan` keyword or a decimal literal
(idealised to an exact rational; digit-group underscores are not
modelled). Returns `none` where Python raises `ValueError`. -/
def pyFloat (s : String) : Option PyFloat :=
  let p := pyFloatSign (pyStrip s).data
  let low := p.2.map Char.toLower
  if low = "inf".data ∨ low = "infinity".data then some (PyFloat.inf p.1)
  else if low = "nan".data then some PyFloat.nan
  else
    match parseDecimal p.2 with
    | some q => some (PyFloat.finite (if p.1 then q else -q))
    | none => none

/-- Python `str(x)` / f-string rendering of a float: `nan`, `inf`, `-inf`,
or the decimal rendering of the finite value (idealised for non-integral
values; integral values print as `n.0` exactly as Python does). -/
def pyStr : PyFloat → String
  | PyFloat.nan => "nan"
  | PyFloat.inf true => "inf"
  | PyFloat.inf false => "-inf"
  | PyFloat.finite q =>
    if q.den = 1 then toString q.num ++ ".0" else toString q

/-- Embedding of the body of the `try` block in `main` (`calculator.py`
lines 31-40) for one already-stripped input line: split into tokens, require
exactly three (Python's `len(parts) != 3` guard plus the three-way
unpacking), convert the operand tokens with `float` (a failed conversion
raises `ValueError` with Python's message), call `calculate`, and render
the printed line. `Except.error` marks an exception leaving the block. -/
def tryBody (s : String) : Except PyError String :=
  match pySplit s with
  | [a_str, operator, b_str] =>
    match pyFloat a_str with
    | none => Except.error (PyError.valueError
        ("could not convert string to float: " ++ "\x27" ++ a_str ++ "\x27"))
    | some a =>
      match pyFloat b_str with
      | none => Except.error (PyError.valueError
          ("could not convert string to float: " ++ "\x27" ++ b_str ++ "\x27"))
      | some b =>
        match calculate a b operator with
        | Except.ok result => Except.ok ("Result: " ++ pyStr result)
        | Except.error e => Except.error e
  | _ => Except.ok "Invalid format. Use: a operator b (e.g. 5 + 3)"

/-- Embedding of one non-exit loop iteration's printed line: the `try`
block's output on success, or the message printed by the matching
`except` clause (`calculator.py` lines 41-46). -/
def processLine (s : String) : String :=
  match tryBody s with
  | Except.ok line => line
  | Except.error (PyError.valueError m) => "Input error: " ++ m
  | Except.error (PyError.zeroDivisionError m) => "Calculation error: " ++ m
  | Except.error (PyError.otherError m) => "Unexpected error: " ++ m

/-- How the modelled process ends: `normalExit` is the `break` after
`exit`/`quit` (exit code 0); `uncaughtEOFError` models `input()` raising
`EOFError` at end of input, outside the `try` block, so it propagates out
of `main` uncaught (CPython then exits with a traceback and code 1). -/
inductive ExitStatus where
  | normalExit
  | uncaughtEOFError
deriving DecidableEq

/-- The prompt passed to `input()` each iteration. -/
def prompt : String := "Enter expression (format: a operator b): "

/-- Test of `calculator.py` line 28: the stripped line, lowercased, is a
member of the set containing the two keywords. -/
def isExit (user_input : String) : Bool :=
  pyLower user_input == "exit" || pyLower user_input == "quit"

/-- Embedding of the `while True` loop of `main` (`calculator.py` lines
26-46) over the finite list of remaining input lines: each iteration
prints the prompt and reads a line; an empty input list means `input()`
raises `EOFError` (uncaught); an exit keyword prints the farewell and
breaks; any other line contributes `processLine` of its stripped form and
the loop continues. -/
def loop : List String → List String × ExitStatus
  | [] => ([prompt], ExitStatus.uncaughtEOFError)
  | line :: rest =>
    let user_input := pyStrip line
    if isExit user_input then ([prompt, "Goodbye!"], ExitStatus.normalExit)
    else
      let r := loop rest
      (prompt :: processLine user_input :: r.1, r.2)

/-- Embedding of the `main()` function (named `calcMain` here because Lean reserves `main`): print the banner, then run the loop on the
whole input stream. -/
def calcMain (inputs : List String) : List String × ExitStatus :=
  let r := loop inputs
  ("Simple Console Calculator. Type \x27exit\x27 or \x27quit\x27 to leave." :: r.1, r.2)

/-! ## Helper lemmas -/

/-- A line that does not split into exactly three tokens takes the
format-error branch of the `try` block. -/
theorem tryBody_format_error (s : String) (h : (pySplit s).length ≠ 3) :
    tryBody s = Except.ok "Invalid format. Use: a operator b (e.g. 5 + 3)" := by
  unfold tryBody
  generalize hps : pySplit s = parts at h
  rcases parts with _ | ⟨a1, _ | ⟨op, _ | ⟨b1, _ | ⟨d, l⟩⟩⟩⟩
  · rfl
  · rfl
  · rfl
  · exact absurd rfl h
  · rfl

/-! ## Claim theorems -/

/-- C1 (counterexample): on an empty input stream the modelled process ends
with an uncaught `EOFError`, not with the normal exit the claim asserts. -/
theorem eof_graceful_exit_counterexample :
    (calcMain []).2 = ExitStatus.uncaughtEOFError
    ∧ (calcMain []).2 ≠ ExitStatus.normalExit := by decide

/-- C1 (amended): when the input stream is exhausted without an
`exit`/`quit` line ever being read, the session ends with an uncaught
`EOFError` from `input()` (which sits outside the `try` block), so the
process terminates abnormally rather than as by an explicit exit. -/
theorem eof_raises_uncaught_eoferror (inputs : List String)
    (h : ∀ line ∈ inputs, isExit (pyStrip line) = false) :
    (calcMain inputs).2 = ExitStatus.uncaughtEOFError := by
  have hl : ∀ l : List String, (∀ line ∈ l, isExit (pyStrip line) = false) →
      (loop l).2 = ExitStatus.uncaughtEOFError := by
    intro l
    induction l with
    | nil => intro _; rfl
    | cons a t ih =>
      intro hh
      have ha : isExit (pyStrip a) = false := hh a (List.mem_cons_self a t)
      have ht := ih fun x hx => hh x (List.mem_cons_of_mem a hx)
      simp [loop, ha, ht]
  simpa [calcMain] using hl inputs h

/-- C1 (witness for the amended claim): a session whose single line is an
ordinary expression ends in the uncaught-`EOFError` state. -/
theorem eof_raises_uncaught_eoferror_witness :
    (calcMain ["1 + 1"]).2 = ExitStatus.uncaughtEOFError :=
  eof_raises_uncaught_eoferror ["1 + 1"] (by decide)

/-- C2: a line whose stripped form is not an exit keyword never ends the
session: the iteration prints the prompt and the (always defined) outcome
of processing the line, and the loop's remaining behaviour is exactly that
of the remaining input, so the session stays running and prompts again. -/
theorem nonexit_line_never_terminates (line : String) (rest : List String)
    (h : isExit (pyStrip line) = false) :
    loop (line :: rest) =
      (prompt :: processLine (pyStrip line) :: (loop rest).1, (loop rest).2) := by
  simp [loop, h]

/-- C2 (witness): a malformed line is processed and the loop continues to
the rest of the input. -/
theorem nonexit_line_never_terminates_witness :
    loop ["5 /"] = (prompt :: processLine (pyStrip "5 /") :: (loop []).1, (loop []).2) :=
  nonexit_line_never_terminates "5 /" [] (by decide)

/-- C3: dividing any float by the zero float fails with the
`ZeroDivisionError` carrying exactly the text
`Division by zero is not allowed.`, and the session prints that text as a
calculation error (shown on the input `10 / 0`). -/
theorem division_by_zero_fails :
    (∀ a : PyFloat, calculate a PyFloat.zero "/" =
      Except.error (PyError.zeroDivisionError "Division by zero is not allowed."))
    ∧ processLine "10 / 0" = "Calculation error: Division by zero is not allowed." :=
  ⟨fun _ => rfl, by decide⟩

/-- C4: any operator symbol outside the four recognised ones makes
`calculate` fail with a `ValueError` whose message names the offending
symbol, and the session reports it as an input error naming the symbol
(shown on the input `5 % 3`). -/
theorem unsupported_operator_fails (operator : String)
    (h : operator ∉ (["+", "-", "*", "/"] : List String)) :
    (∀ a b : PyFloat, calculate a b operator =
      Except.error (PyError.valueError ("Unsupported operator: " ++ operator)))
    ∧ processLine "5 % 3" = "Input error: Unsupported operator: %" := by
  have h4 : operator ≠ "+" ∧ operator ≠ "-" ∧ operator ≠ "*" ∧ operator ≠ "/" := by
    simpa using h
  refine ⟨fun a b => ?_, by decide⟩
  simp [calculate, h4.1, h4.2.1, h4.2.2.1, h4.2.2.2]

/-- C4 (witness): the modulo symbol is rejected with the naming message. -/
theorem unsupported_operator_fails_witness :
    calculate PyFloat.zero PyFloat.zero "%" =
      Except.error (PyError.valueError ("Unsupported operator: " ++ "%")) :=
  (unsupported_operator_fails "%" (by decide)).1 PyFloat.zero PyFloat.zero

/-- C5: a line whose stripped form equals `exit` or `quit` case-insensitively
prints the farewell and terminates the loop normally; no parsing or
evaluation output is produced for it and the remaining input is unread. -/
theorem exit_keyword_terminates (line : String) (rest : List String)
    (h : pyLower (pyStrip line) = "exit" ∨ pyLower (pyStrip line) = "quit") :
    loop (line :: rest) = ([prompt, "Goodbye!"], ExitStatus.normalExit) := by
  have hx : isExit (pyStrip line) = true := by
    rcases h with h | h <;> simp [isExit, h]
  simp [loop, hx]

/-- C5 (witness): an upper-case, whitespace-surrounded `QUIT` terminates
even with further input pending. -/
theorem exit_keyword_terminates_witness :
    loop ["  QUIT ", "1 + 1"] = ([prompt, "Goodbye!"], ExitStatus.normalExit) :=
  exit_keyword_terminates "  QUIT " ["1 + 1"] (by decide)

/-- C6: division by a float that does not compare equal to zero succeeds
and returns exactly the native float quotient. -/
theorem division_nonzero_returns_quotient (a b : PyFloat)
    (h : PyFloat.beq b PyFloat.zero = false) :
    calculate a b "/" = Except.ok (PyFloat.div a b) := by
  simp [calculate, h]

/-- C6 (witness): `1 / 2` evaluates to the native quotient. -/
theorem division_nonzero_returns_quotient_witness :
    calculate (PyFloat.finite 1) (PyFloat.finite 2) "/" =
      Except.ok (PyFloat.div (PyFloat.finite 1) (PyFloat.finite 2)) :=
  division_nonzero_returns_quotient (PyFloat.finite 1) (PyFloat.finite 2) (by decide)

/-- C7: for every pair of floats, `+`, `-` and `*` succeed and return
exactly the corresponding native float operation, with no further
handling. -/
theorem add_sub_mul_are_native (a b : PyFloat) :
    calculate a b "+" = Except.ok (PyFloat.add a b)
    ∧ calculate a b "-" = Except.ok (PyFloat.sub a b)
    ∧ calculate a b "*" = Except.ok (PyFloat.mul a b) := by
  exact ⟨rfl, rfl, rfl⟩

/-- C8: a non-exit line with a token count other than three makes the
iteration print exactly the static format-error message (so no operand is
parsed and the evaluator is never consulted), and the loop's remaining
behaviour is exactly that of the remaining input. -/
theorem bad_token_count_prints_format_error (line : String) (rest : List String)
    (hexit : isExit (pyStrip line) = false)
    (hlen : (pySplit (pyStrip line)).length ≠ 3) :
    loop (line :: rest) =
      (prompt :: "Invalid format. Use: a operator b (e.g. 5 + 3)" :: (loop rest).1,
        (loop rest).2) := by
  have ht := tryBody_format_error (pyStrip line) hlen
  simp [loop, hexit, processLine, ht]

/-- C8 (witness): the two-token line `5 3` produces the format-error
message and the loop continues. -/
theorem bad_token_count_prints_format_error_witness :
    loop ["5 3"] =
      (prompt :: "Invalid format. Use: a operator b (e.g. 5 + 3)" :: (loop []).1,
        (loop []).2) :=
  bad_token_count_prints_format_error "5 3" [] (by decide) (by decide)

/-- C9: `calculate` always returns a float or fails with one of the two
classified errors (`ValueError` or `ZeroDivisionError`), and the whole
`try` block likewise never raises anything else, so the generic
`Unexpected error` branch is unreachable. -/
theorem evaluator_errors_are_classified :
    (∀ (a b : PyFloat) (operator : String),
      (∃ r, calculate a b operator = Except.ok r)
      ∨ (∃ m, calculate a b operator = Except.error (PyError.valueError m))
      ∨ (∃ m, calculate a b operator = Except.error (PyError.zeroDivisionError m)))
    ∧ (∀ s : String,
      (∃ o, tryBody s = Except.ok o)
      ∨ (∃ m, tryBody s = Except.error (PyError.valueError m))
      ∨ (∃ m, tryBody s = Except.error (PyError.zeroDivisionError m))) := by
  have hcalc : ∀ (a b : PyFloat) (operator : String),
      (∃ r, calculate a b operator = Except.ok r)
      ∨ (∃ m, calculate a b operator = Except.error (PyError.valueError m))
      ∨ (∃ m, calculate a b operator = Except.error (PyError.zeroDivisionError m)) := by
    intro a b operator
    unfold calculate
    by_cases h1 : operator = "+"
    · simp [h1]
    · by_cases h2 : operator = "-"
      · simp [h1, h2]
      · by_cases h3 : operator = "*"
        · simp [h1, h2, h3]
        · by_cases h4 : operator = "/"
          · by_cases h5 : PyFloat.beq b PyFloat.zero = true
            · simp [h1, h2, h3, h4, h5]
            · simp [h1, h2, h3, h4, h5]
          · simp [h1, h2, h3, h4]
  refine ⟨hcalc, fun s => ?_⟩
  rcases hps : pySplit s with _ | ⟨a1, _ | ⟨op, _ | ⟨b1, _ | ⟨d, l⟩⟩⟩⟩
  · have ht : tryBody s = Except.ok "Invalid format. Use: a operator b (e.g. 5 + 3)" := by
      simp [tryBody, hps]
    exact Or.inl ⟨_, ht⟩
  · have ht : tryBody s = Except.ok "Invalid format. Use: a operator b (e.g. 5 + 3)" := by
      simp [tryBody, hps]
    exact Or.inl ⟨_, ht⟩
  · have ht : tryBody s = Except.ok "Invalid format. Use: a operator b (e.g. 5 + 3)" := by
      simp [tryBody, hps]
    exact Or.inl ⟨_, ht⟩
  · rcases hfa : pyFloat a1 with _ | a
    · have ht : tryBody s = Except.error (PyError.valueError
          ("could not convert string to float: " ++ "\x27" ++ a1 ++ "\x27")) := by
        simp [tryBody, hps, hfa]
      exact Or.inr (Or.inl ⟨_, ht⟩)
    · rcases hfb : pyFloat b1 with _ | b
      · have ht : tryBody s = Except.error (PyError.valueError
            ("could not convert string to float: " ++ "\x27" ++ b1 ++ "\x27")) := by
          simp [tryBody, hps, hfa, hfb]
        exact Or.inr (Or.inl ⟨_, ht⟩)
      · rcases hcalc a b op with ⟨r, hr⟩ | ⟨m, hm⟩ | ⟨m, hm⟩
        · have ht : tryBody s = Except.ok ("Result: " ++ pyStr r) := by
            simp [tryBody, hps, hfa, hfb, hr]
          exact Or.inl ⟨_, ht⟩
        · have ht : tryBody s = Except.error (PyError.valueError m) := by
            simp [tryBody, hps, hfa, hfb, hm]
          exact Or.inr (Or.inl ⟨_, ht⟩)
        · have ht : tryBody s = Except.error (PyError.zeroDivisionError m) := by
            simp [tryBody, hps, hfa, hfb, hm]
          exact Or.inr (Or.inr ⟨_, ht⟩)
  · have ht : tryBody s = Except.ok "Invalid format. Use: a operator b (e.g. 5 + 3)" := by
      simp [tryBody, hps]
    exact Or.inl ⟨_, ht⟩

/-- C10: the operand tokens `inf`, `infinity` and `nan` are accepted by the
float conversion in any letter case (with an optional sign) rather than
rejected, NaN does not compare equal to zero so `1 / nan` reaches the
evaluator and succeeds, and the result line prints the non-finite value. -/
theorem nonfinite_operand_tokens_accepted :
    pyFloat "inf" = some (PyFloat.inf true)
    ∧ pyFloat "Infinity" = some (PyFloat.inf true)
    ∧ pyFloat "NAN" = some PyFloat.nan
    ∧ pyFloat "-Inf" = some (PyFloat.inf false)
    ∧ PyFloat.beq PyFloat.nan PyFloat.zero = false
    ∧ calculate (PyFloat.finite 1) PyFloat.nan "/" = Except.ok PyFloat.nan
    ∧ processLine "1 / nan" = "Result: nan" :=
  ⟨by decide, by decide, by decide, by decide, by decide, rfl, by decide⟩
